import Mathlib

/-!
Shallow embedding of the Companion Engagement Engine and Nudge Scheduler
of the nosyagent repository (source files `companion.py` and `storage.py`).

Modelling conventions:
* `datetime` values are integers counting whole minutes since an arbitrary
  epoch.  Every interval the code manipulates (1 minute, 1 hour, 24 hours,
  2/3/7 days) is a whole number of minutes, and the nudge candidate is
  explicitly truncated to whole minutes by the code.
* `time`-of-day values are minutes since midnight (`0 ≤ t < 1440`); Python
  compares `time` objects lexicographically on (hour, minute), which agrees
  with comparing minute counts.
* The persistent `user_settings` table (keyed by `chat_id`) is a function
  `String → Option UserSettings`; `upsert` is a functional update.
* `random.choice` is modelled by an explicit index parameter reduced modulo
  the length of the list being chosen from.
* `str.format` applied to the bank templates with the `{topic}` / `{focus}`
  placeholders is modelled as textual substitution of those placeholders.
* Python string helpers (`strip`, `lower`, `split`, `strip(",.?!")`) are
  re-implemented over `List Char` so that every definition is executable by
  the kernel.
-/

/-- Python `str.isspace` classification used by `strip` / `split`. -/
def isPyWS (c : Char) : Bool := c.isWhitespace

/-- Python `str.lower` (character-wise case folding). -/
def pyLower (s : String) : String := String.mk (s.data.map Char.toLower)

/-- Python `str.strip()` — remove leading and trailing whitespace. -/
def pyStrip (s : String) : String :=
  String.mk (((s.data.dropWhile isPyWS).reverse.dropWhile isPyWS).reverse)

/-- Python `str.rstrip()` — remove trailing whitespace. -/
def pyRStrip (s : String) : String :=
  String.mk ((s.data.reverse.dropWhile isPyWS).reverse)

/-- Helper for `pySplit`: walk the characters with an accumulator for the
current (reversed) token. -/
def wsSplitAux : List Char → List Char → List String
  | [], acc => if acc.isEmpty then [] else [String.mk acc.reverse]
  | c :: rest, acc =>
    if isPyWS c then
      if acc.isEmpty then wsSplitAux rest []
      else String.mk acc.reverse :: wsSplitAux rest []
    else wsSplitAux rest (c :: acc)

/-- Python `str.split()` with no argument: split on runs of whitespace,
discarding empty tokens. -/
def pySplit (s : String) : List String := wsSplitAux s.data []

/-- The punctuation characters stripped from tokens: `",.?!"`. -/
def isPunct (c : Char) : Bool := c == ',' || c == '.' || c == '?' || c == '!'

/-- Python `str.strip(",.?!")` restricted to the trailing end. -/
def stripPunctTrailing (s : String) : String :=
  String.mk ((s.data.reverse.dropWhile isPunct).reverse)

/-- Python `token.strip(",.?!")` — strip the characters `,.?!` from both
ends of a token (trailing end first; the order is immaterial). -/
def stripPunctBoth (s : String) : String :=
  String.mk (((s.data.reverse.dropWhile isPunct).reverse).dropWhile isPunct)

/-- Does `needle` occur at the head of `hay`? -/
def matchesAt : List Char → List Char → Bool
  | [], _ => true
  | _ :: _, [] => false
  | a :: as, b :: bs => a == b && matchesAt as bs

/-- Python `needle in hay` substring membership. -/
def hasSubstr (needle : List Char) : List Char → Bool
  | [] => needle.isEmpty
  | c :: rest => matchesAt needle (c :: rest) || hasSubstr needle rest

/-- Replace every (non-overlapping, left-to-right) occurrence of `needle`
by `repl` in `hay`. -/
def replaceSub (needle repl : List Char) (hay : List Char) : List Char :=
  match hay with
  | [] => []
  | c :: rest =>
    if h : needle ≠ [] ∧ matchesAt needle (c :: rest) = true then
      repl ++ replaceSub needle repl ((c :: rest).drop needle.length)
    else
      c :: replaceSub needle repl rest
termination_by hay.length
decreasing_by
  · have hne : 1 ≤ needle.length := by
      cases needle with
      | nil => exact absurd rfl h.1
      | cons _ _ => simp
    simp only [List.length_drop, List.length_cons]
    omega
  · simp

/-! ## Data model (`storage.py`) -/

/-- The per-user companion settings record (`storage.UserSettings`), with the
dataclass defaults. -/
structure UserSettings where
  chat_id : String
  companion_level : String := "light"
  nudge_frequency : String := "weekly"
  quiet_hours_start : String := "22:00"
  quiet_hours_end : String := "07:00"
  last_reflection_at : Option Int := none
  short_reply_streak : Int := 0
  reflections_paused_until : Option Int := none
  last_template_id : Option String := none
  last_nudge_at : Option Int := none
deriving DecidableEq

/-- One row of the append-only companion-metrics log. -/
structure CompanionMetric where
  chat_id : String
  template_id : Option String
  shown_at : Int
  muted : Bool := false
  line_count : Int := 0
deriving DecidableEq

/-- The `user_settings` table: at most one row per `chat_id`. -/
def Store := String → Option UserSettings

/-- Well-formedness of the table: a stored row's `chat_id` column equals its
key (guaranteed by the SQL schema, where `chat_id` is the primary key). -/
def StoreWF (store : Store) : Prop :=
  ∀ c s, store c = some s → s.chat_id = c

/-- `Storage.get_user_settings`: fetch the row, falling back to the dataclass
defaults when absent.  The source performs only a `SELECT`. -/
def get_user_settings (store : Store) (chat_id : String) : UserSettings :=
  match store chat_id with
  | none => { chat_id := chat_id }
  | some s => s

/-- `Storage.get_user_settings` viewed as a state transformer: the read
leaves the table untouched (the source runs a single `SELECT`). -/
def get_user_settings_op (store : Store) (chat_id : String) : UserSettings × Store :=
  (get_user_settings store chat_id, store)

/-- `Storage.upsert_user_settings`: insert-or-replace the row keyed by the
record's `chat_id`. -/
def upsert_user_settings (store : Store) (s : UserSettings) : Store :=
  fun c => if c = s.chat_id then some s else store c

/-! ## Reflection decision (`companion.py`, `_should_reflect`) -/

/-- `companion.STOP_WORDS`. -/
def STOP_WORDS : List String := ["stop", "mute", "quiet"]

/-- The normalisation `message.strip().lower()` used by `_should_reflect`
for both the incoming message and the previous user message. -/
def strip_lower (s : String) : String := pyLower (pyStrip s)

/-- `STOP_WORDS.intersection({token.strip(",.?!") for token in normalized.split()})`
is non-empty. -/
def has_stop_word (normalized : String) : Bool :=
  (pySplit normalized).any (fun token => STOP_WORDS.contains (stripPunctBoth token))

/-- `settings.reflections_paused_until and settings.reflections_paused_until > now`. -/
def paused_active (s : UserSettings) (now : Int) : Bool :=
  match s.reflections_paused_until with
  | some p => decide (p > now)
  | none => false

/-- The repeated-prompt check: the last recent user message, stripped and
lowered, is non-empty and equals the normalised current message. -/
def is_repeat (normalized : String) (recent : List String) : Bool :=
  match recent.getLast? with
  | some last =>
    let lu := strip_lower last
    !(lu == "") && lu == normalized
  | none => false

/-- `CompanionService._should_reflect`.  The Python method mutates the
`settings` object in place; here it returns the decision together with the
(possibly updated) settings record. -/
def _should_reflect (user_message : String) (recent : List String) (now : Int)
    (s : UserSettings) : Bool × UserSettings :=
  if s.companion_level = "off" then (false, s)
  else
    let normalized := strip_lower user_message
    if normalized = "" then (false, s)
    else if has_stop_word normalized then (false, s)
    else if paused_active s now then (false, s)
    else if is_repeat normalized recent then (false, s)
    else
      let short_reply := (pySplit normalized).length < 5
      let s1 := if short_reply then { s with short_reply_streak := s.short_reply_streak + 1 }
                else { s with short_reply_streak := 0 }
      if s1.short_reply_streak ≥ 3 then
        (false, { s1 with reflections_paused_until := some (now + 1440) })
      else (true, s1)

/-! ## Template bank and reflection rendering -/

/-- One entry of the template bank (`{id, summary, question, stretch}`
dictionaries; `question`/`stretch` may be absent). -/
structure Template where
  id : String
  summary : String := ""
  question : Option String := none
  stretch : Option String := none
deriving DecidableEq

/-- `companion.DEFAULT_TEMPLATE_SET`. -/
def DEFAULT_TEMPLATE_SET : List Template :=
  [ { id := "focus",
      summary := "You're homing in on {focus}.",
      question := some "What would move {topic} forward today?",
      stretch := some "Try writing the smallest next step for {topic}." },
    { id := "tension",
      summary := "I hear tension around {focus}.",
      question := some "What constraint is shaping this for you?",
      stretch := some "Explore one assumption you could test fast." },
    { id := "momentum",
      summary := "Momentum shows up in how you describe {focus}.",
      question := some "Where do you already have leverage here?",
      stretch := some "Name a quick win worth locking in this week." } ]

/-- `companion.TOPIC_MAP` (insertion order of the Python dict). -/
def TOPIC_MAP : List (String × List String) :=
  [ ("health", ["sleep", "run", "gym", "diet", "protein", "fast", "steps", "walk"]),
    ("finance", ["budget", "money", "cash", "invest", "spend", "savings", "debt", "tax"]),
    ("work", ["deploy", "client", "meeting", "deadline", "project", "team", "code", "launch"]) ]

/-- `CompanionService._next_template`: `None` last id (or the falsy empty
string) selects the first template; a known id selects its cyclic successor;
an unknown id falls back to the first template. -/
def _next_template (templates : List Template) (last_template_id : Option String) :
    Option Template :=
  match templates with
  | [] => none
  | t0 :: _ =>
    match last_template_id with
    | none => some t0
    | some lid =>
      if lid = "" then some t0
      else
        match templates.findIdx? (fun t => t.id == lid) with
        | some idx => templates.get? ((idx + 1) % templates.length)
        | none => some t0

/-- `CompanionService._infer_topic`: first topic whose keyword list has a
member occurring in the lowered message; default `"life"`. -/
def _infer_topic (user_message : String) : String :=
  let text := pyLower user_message
  match TOPIC_MAP.find? (fun p => p.2.any (fun keyword => hasSubstr keyword.data text.data)) with
  | some p => p.1
  | none => "life"

/-- `CompanionService._focus`: whitespace-collapse the message and truncate
to 64 characters (61 characters plus `"..."` when longer). -/
def _focus (user_message : String) : String :=
  let clean := String.intercalate " " (pySplit user_message)
  if clean.data.length ≤ 64 then clean
  else String.mk (clean.data.take 61) ++ "..."

/-- `CompanionService._trim_line`: cap a rendered line at 30 words. -/
def _trim_line (text : String) : String :=
  let words := pySplit text
  if words.length ≤ 30 then text
  else String.intercalate " " (words.take 30)

/-- `CompanionService._format_line`: substitute `{topic}` and `{focus}`
and cap at 30 words; the empty template renders to the empty string. -/
def _format_line (template topic focus : String) : String :=
  if template = "" then ""
  else
    _trim_line (String.mk (replaceSub "{focus}".data focus.data
      (replaceSub "{topic}".data topic.data template.data)))

/-- Truthiness of an optional string (`if template.get("question"):`). -/
def truthyOpt (o : Option String) : Option String :=
  match o with
  | some s => if s = "" then none else some s
  | none => none

/-- Result record of a successful reflection build. -/
structure ReflectionResult where
  text : String
  template_id : String
  line_count : Int
deriving DecidableEq

/-- `CompanionService._build_reflection`.  `rand` stands for the
`random.choice` pick among the candidate elements. -/
def _build_reflection (templates : List Template) (rand : Nat) (user_message : String)
    (s : UserSettings) : Option ReflectionResult :=
  match _next_template templates s.last_template_id with
  | none => none
  | some template =>
    let topic := _infer_topic user_message
    let focus := _focus user_message
    let fromQuestion : List String :=
      match truthyOpt template.question with
      | some q =>
        let formatted := _format_line q topic focus
        if formatted = "" then [] else [formatted]
      | none => []
    let fromStretch : List String :=
      match truthyOpt template.stretch with
      | some q =>
        let formatted := _format_line q topic focus
        if formatted = "" then [] else [formatted]
      | none => []
    match fromQuestion ++ fromStretch with
    | [] => none
    | e0 :: es =>
      some { text := (e0 :: es).get ⟨rand % (es.length + 1), Nat.mod_lt _ (Nat.succ_pos _)⟩,
             template_id := template.id,
             line_count := 1 }

/-- `CompanionService._merge_response`: append the reflection to the
right-trimmed base reply on a new line. -/
def _merge_response (base_response reflection_block : String) : String :=
  let base_clean := pyRStrip base_response
  if base_clean = "" then reflection_block
  else base_clean ++ "\n" ++ reflection_block

/-- Observable outcome of one `wrap_response` call: the reply, the settings
table afterwards, and the metric rows appended. -/
structure WrapOutcome where
  response : String
  store : Store
  metrics : List CompanionMetric

/-- `CompanionService.wrap_response` (`consider` in the spec). -/
def wrap_response (enabled : Bool) (templates : List Template) (rand : Nat) (store : Store)
    (chat_id user_message base_response : String) (recent : List String) (now : Int) :
    WrapOutcome :=
  if enabled = false then ⟨base_response, store, []⟩
  else
    let settings := get_user_settings store chat_id
    let decision := _should_reflect user_message recent now settings
    if decision.1 = false then ⟨base_response, upsert_user_settings store decision.2, []⟩
    else
      match _build_reflection templates rand user_message decision.2 with
      | none => ⟨base_response, upsert_user_settings store decision.2, []⟩
      | some reflection =>
        let composed := _merge_response base_response reflection.text
        let s2 := { decision.2 with
          last_reflection_at := some now,
          last_template_id := some reflection.template_id,
          reflections_paused_until := none,
          short_reply_streak := 0 }
        ⟨composed, upsert_user_settings store s2,
          [{ chat_id := chat_id, template_id := some reflection.template_id,
             shown_at := now, muted := false, line_count := 1 }]⟩

/-! ## Nudge scheduler (`companion.py`) -/

/-- Decimal digit value. -/
def parse_digit (c : Char) : Option Nat :=
  if c.isDigit then some (c.toNat - 48) else none

/-- `strptime` field of one or two decimal digits. -/
def parse_nat_1or2 (s : String) : Option Nat :=
  match s.data with
  | [c] => parse_digit c
  | [c1, c2] =>
    match parse_digit c1, parse_digit c2 with
    | some a, some b => some (10 * a + b)
    | _, _ => none
  | _ => none

/-- Helper for splitting on `':'` (Python `str.split(":")`, keeping empty
pieces). -/
def splitColonAux : List Char → List Char → List String
  | [], acc => [String.mk acc.reverse]
  | c :: rest, acc =>
    if c == ':' then String.mk acc.reverse :: splitColonAux rest []
    else splitColonAux rest (c :: acc)

/-- Python `s.split(":")`. -/
def splitColon (s : String) : List String := splitColonAux s.data []

/-- `datetime.strptime(value, "%H:%M")`, returning minutes since midnight.
`%H` and `%M` each accept one or two digits within range; the whole string
must be consumed. -/
def parse_hhmm (s : String) : Option Nat :=
  match splitColon s with
  | [h, m] =>
    match parse_nat_1or2 h, parse_nat_1or2 m with
    | some hv, some mv => if hv < 24 && mv < 60 then some (hv * 60 + mv) else none
    | _, _ => none
  | _ => none

/-- `CompanionService._quiet_bounds`: parse both stored quiet-hour strings
(`none` models the `ValueError` raised by `strptime` on malformed data). -/
def _quiet_bounds (s : UserSettings) : Option (Nat × Nat) :=
  match parse_hhmm s.quiet_hours_start, parse_hhmm s.quiet_hours_end with
  | some a, some b => some (a, b)
  | _, _ => none

/-- `CompanionService._is_quiet_time` on minute-of-day values. -/
def _is_quiet_time (current s e : Nat) : Bool :=
  if s < e then decide (s ≤ current ∧ current < e)
  else decide (current ≥ s ∨ current < e)

/-- `CompanionService._is_after_now`: `candidate > now + timedelta(minutes=1)`. -/
def _is_after_now (candidate now : Int) : Bool := decide (candidate > now + 1)

/-- Minute-of-day of a datetime (`candidate.time()`). -/
def timeOfDay (c : Int) : Nat := (c.emod 1440).toNat

/-- The `while` loop of `_compute_next_nudge_time`: advance the candidate by
one hour while it is not sufficiently in the future or falls in the quiet
window; stop (keeping the advanced candidate) once it would exceed
`now + 2 days`. -/
def nudge_adjust (qs qe : Nat) (now candidate : Int) : Int :=
  if _is_after_now candidate now && !(_is_quiet_time (timeOfDay candidate) qs qe) then
    candidate
  else if h : candidate + 60 - now > 2880 then candidate + 60
  else nudge_adjust qs qe now (candidate + 60)
termination_by (now + 2880 - candidate).toNat
decreasing_by
  simp only [gt_iff_lt, not_lt] at h
  omega

/-- Fuel-indexed unfolding of the same loop, used to state that the loop
always terminates: `none` means the fuel ran out before the loop exited. -/
def nudge_adjust_fuel (qs qe : Nat) (now : Int) : Nat → Int → Option Int
  | 0, _ => none
  | fuel + 1, candidate =>
    if _is_after_now candidate now && !(_is_quiet_time (timeOfDay candidate) qs qe) then
      some candidate
    else if candidate + 60 - now > 2880 then some (candidate + 60)
    else nudge_adjust_fuel qs qe now fuel (candidate + 60)

/-- `CompanionService._compute_next_nudge_time`.  The candidate starts at
`now` plus the cadence interval, is anchored to the end of the quiet window
plus 60 minutes, and is then adjusted by the loop.  `none` models the
exception raised when a stored quiet-hour string is malformed. -/
def _compute_next_nudge_time (s : UserSettings) (now : Int) : Option Int :=
  match _quiet_bounds s with
  | none => none
  | some (qs, qe) =>
    let delta : Int := if s.nudge_frequency = "standard" then 3 * 1440 else 7 * 1440
    let c0 := now + delta
    let c1 := c0 - c0.emod 1440 + (qe : Int)
    some (nudge_adjust qs qe now (c1 + 60))

/-- `CompanionService._pick_spark`: random topic, then random spark from the
topic's list; `none` when the spark map (or the chosen list) is empty.
`r1`/`r2` stand for the two `random.choice` picks. -/
def _pick_spark (sparks : List (String × List String)) (r1 r2 : Nat) : Option String :=
  match sparks with
  | [] => none
  | p :: ps =>
    let pair := (p :: ps).get ⟨r1 % (ps.length + 1), Nat.mod_lt _ (Nat.succ_pos _)⟩
    match pair.2 with
    | [] => none
    | q :: qs => some ((q :: qs).get ⟨r2 % (qs.length + 1), Nat.mod_lt _ (Nat.succ_pos _)⟩)

/-- `settings.last_nudge_at and settings.last_nudge_at > now`. -/
def nudge_in_future (s : UserSettings) (now : Int) : Bool :=
  match s.last_nudge_at with
  | some t => decide (t > now)
  | none => false

/-- Observable outcome of one `schedule_next_nudge` call: the returned
timestamp, the settings table afterwards, and the jobs successfully handed
to the deferred delivery queue. -/
structure NudgeOutcome where
  result : Option Int
  store : Store
  queued : List (String × String × Int)

/-- `CompanionService.schedule_next_nudge` (`scheduleNext` in the spec).
`enqueue_ok` is the boolean outcome of the external
`schedule_reminder_task` hand-off; the overall `none` models the exception
raised on malformed stored quiet-hour strings. -/
def schedule_next_nudge (enabled : Bool) (sparks : List (String × List String))
    (r1 r2 : Nat) (enqueue_ok : Bool) (store : Store) (chat_id : String) (now : Int) :
    Option NudgeOutcome :=
  let settings := get_user_settings store chat_id
  if enabled = false ∨ settings.companion_level = "off" ∨ settings.nudge_frequency = "off" then
    some ⟨none, store, []⟩
  else if nudge_in_future settings now then
    some ⟨settings.last_nudge_at, store, []⟩
  else
    match _compute_next_nudge_time settings now with
    | none => none
    | some target =>
      match _pick_spark sparks r1 r2 with
      | none => some ⟨none, store, []⟩
      | some spark =>
        let message := "Spark: " ++ spark ++ " Reply stop to mute."
        if enqueue_ok then
          some ⟨some target,
                upsert_user_settings store { settings with last_nudge_at := some target },
                [(chat_id, message, target)]⟩
        else some ⟨none, store, []⟩

/-! ## Iterated template rotation and concrete stores -/

/-- Ids of `n` consecutive successful reflections starting from a given
`last_template_id`: after each success `wrap_response` stores the chosen
template's id as the new `last_template_id`, so the next pick is
`_next_template` of the previous pick's id. -/
def rotateIds (ts : List Template) : Nat → Option String → List String
  | 0, _ => []
  | n + 1, last =>
    match _next_template ts last with
    | none => []
    | some t => t.id :: rotateIds ts n (some t.id)

/-- Index of the template `_next_template` selects (specification device
for the rotation proof, not part of the source). -/
def startIdx (ts : List Template) (last : Option String) : Nat :=
  match last with
  | none => 0
  | some lid =>
    if lid = "" then 0
    else
      match ts.findIdx? (fun t => t.id == lid) with
      | some idx => (idx + 1) % ts.length
      | none => 0

/-- Id of the template at cyclic position `k` (specification device for the
rotation proof, not part of the source). -/
def idAt (ts : List Template) (k : Nat) : String :=
  ((ts.get? (k % ts.length)).map Template.id).getD ""

/-- A settings table holding one row: companion turned off, with a
`last_nudge_at` timestamp still in the future at time 0. -/
def storeOffFutureNudge : Store := fun c =>
  if c = "user-1" then
    some { chat_id := "user-1", companion_level := "off", last_nudge_at := some 100 }
  else none

/-- A settings table holding one row: default companion settings with a
`last_nudge_at` timestamp still in the future at time 0. -/
def storeFutureNudge : Store := fun c =>
  if c = "user-1" then some { chat_id := "user-1", last_nudge_at := some 100 }
  else none

/-! ## Helper lemmas -/

/-- In a well-formed table, the settings record returned for `chat_id`
carries `chat_id` itself. -/
theorem get_user_settings_chat_id (store : Store) (chat_id : String) (hwf : StoreWF store) :
    (get_user_settings store chat_id).chat_id = chat_id := by
  unfold get_user_settings
  cases h : store chat_id with
  | none => rfl
  | some s => exact hwf _ _ h

/-- Writing back an unmodified stored row leaves the table unchanged. -/
theorem upsert_stored_row_eq (store : Store) (chat_id : String) (s0 : UserSettings)
    (hwf : StoreWF store) (h : store chat_id = some s0) :
    upsert_user_settings store s0 = store := by
  funext c
  unfold upsert_user_settings
  by_cases hc : c = s0.chat_id
  · have hk : s0.chat_id = chat_id := hwf _ _ h
    rw [if_pos hc, hc, hk, h]
  · rw [if_neg hc]

/-- Reading back a freshly upserted record whose `chat_id` matches the key. -/
theorem get_upsert_eq (store : Store) (s : UserSettings) (c : String) (h : s.chat_id = c) :
    get_user_settings (upsert_user_settings store s) c = s := by
  unfold get_user_settings upsert_user_settings
  rw [if_pos h.symm]

/-! ## C5, C9 — quiet-hours membership -/

/-- C5.  Quiet-hours membership handles wraparound: `t` is quiet iff
`start < end` and `start ≤ t < end`, or `start ≥ end` and (`t ≥ start` or
`t < end`); in particular for the 22:00–07:00 window 23:30 is quiet and
08:00 is not. -/
theorem quiet_hours_wraparound :
    (∀ t s e : Nat, _is_quiet_time t s e = true ↔
      ((s < e ∧ s ≤ t ∧ t < e) ∨ (s ≥ e ∧ (t ≥ s ∨ t < e)))) ∧
    _is_quiet_time (23 * 60 + 30) (22 * 60) (7 * 60) = true ∧
    _is_quiet_time (8 * 60) (22 * 60) (7 * 60) = false := by
  refine ⟨?_, by decide, by decide⟩
  intro t s e
  unfold _is_quiet_time
  by_cases h : s < e
  · rw [if_pos h]
    simp only [decide_eq_true_eq]
    omega
  · rw [if_neg h]
    simp only [decide_eq_true_eq]
    omega

/-- C9.  When the quiet window's start equals its end, every time of day is
classified as quiet: the wrap branch applies, and `t ≥ s ∨ t < s` always
holds. -/
theorem quiet_hours_degenerate_all_day (s t : Nat) : _is_quiet_time t s s = true := by
  unfold _is_quiet_time
  rw [if_neg (lt_irrefl s)]
  simp only [decide_eq_true_eq]
  omega

/-! ## C10 — reading settings never writes -/

/-- C10.  For a `chat_id` with no stored row, `get_user_settings` returns the
documented defaults without touching the table; a row appears only through a
later upsert. -/
theorem get_user_settings_defaults_no_write (store : Store) (chat_id : String)
    (h : store chat_id = none) :
    get_user_settings_op store chat_id =
      ({ chat_id := chat_id, companion_level := "light", nudge_frequency := "weekly",
         quiet_hours_start := "22:00", quiet_hours_end := "07:00",
         last_reflection_at := none, short_reply_streak := 0,
         reflections_paused_until := none, last_template_id := none,
         last_nudge_at := none }, store) ∧
    upsert_user_settings store (get_user_settings store chat_id) chat_id =
      some (get_user_settings store chat_id) := by
  constructor
  · unfold get_user_settings_op get_user_settings
    rw [h]
  · unfold upsert_user_settings get_user_settings
    rw [h]
    simp

/-- Witness for C10 at a concrete empty table. -/
theorem get_user_settings_defaults_no_write_witness :
    get_user_settings_op (fun _ => none) "user-1" =
      ({ chat_id := "user-1", companion_level := "light", nudge_frequency := "weekly",
         quiet_hours_start := "22:00", quiet_hours_end := "07:00",
         last_reflection_at := none, short_reply_streak := 0,
         reflections_paused_until := none, last_template_id := none,
         last_nudge_at := none }, fun _ => none) :=
  (get_user_settings_defaults_no_write (fun _ => none) "user-1" rfl).1

/-! ## C1 — companion off: base reply unchanged, no settings mutation -/

/-- C1.  For a user whose settings have `companion_level = "off"`,
`wrap_response` returns the base reply unchanged and the settings table
after the call is identical to the table before the call. -/
theorem companion_off_frame
    (enabled : Bool) (templates : List Template) (rand : Nat) (store : Store)
    (chat_id user_message base_response : String) (recent : List String) (now : Int)
    (hwf : StoreWF store)
    (hoff : (get_user_settings store chat_id).companion_level = "off") :
    (wrap_response enabled templates rand store chat_id user_message base_response
        recent now).response = base_response ∧
    (wrap_response enabled templates rand store chat_id user_message base_response
        recent now).store = store := by
  cases enabled with
  | false => exact ⟨rfl, rfl⟩
  | true =>
    have hrow : store chat_id = some (get_user_settings store chat_id) := by
      cases h : store chat_id with
      | none =>
        exfalso
        unfold get_user_settings at hoff
        rw [h] at hoff
        simp at hoff
        exact absurd hoff (by decide)
      | some s =>
        unfold get_user_settings
        rw [h]
    have hdec : _should_reflect user_message recent now (get_user_settings store chat_id) =
        (false, get_user_settings store chat_id) := by
      unfold _should_reflect
      rw [if_pos hoff]
    have hun : upsert_user_settings store (get_user_settings store chat_id) = store :=
      upsert_stored_row_eq store chat_id _ hwf hrow
    unfold wrap_response
    simp only [hdec, hun]
    exact ⟨rfl, rfl⟩

/-- When the decision is negative, `wrap_response` (with the service
enabled) returns the base reply and persists the decision's settings. -/
theorem wrap_response_decision_false
    (templates : List Template) (rand : Nat) (store : Store)
    (chat_id user_message base_response : String) (recent : List String) (now : Int)
    (h : (_should_reflect user_message recent now (get_user_settings store chat_id)).1 = false) :
    wrap_response true templates rand store chat_id user_message base_response recent now =
      ⟨base_response,
        upsert_user_settings store
          (_should_reflect user_message recent now (get_user_settings store chat_id)).2, []⟩ := by
  unfold wrap_response
  simp [h]

/-! ## C2 — stop-word suppression -/

/-- A token whose trailing-stripped form is a stop word strips (at both
ends) to that same stop word, because no stop word starts with one of the
stripped punctuation characters. -/
theorem stripPunctBoth_of_trailing_stop (token : String)
    (h : stripPunctTrailing token ∈ STOP_WORDS) : stripPunctBoth token ∈ STOP_WORDS := by
  have heq : stripPunctBoth token =
      String.mk ((stripPunctTrailing token).data.dropWhile isPunct) := rfl
  simp only [STOP_WORDS, List.mem_cons, List.not_mem_nil, or_false] at h ⊢
  rcases h with h | h | h
  · left; rw [heq, h]; decide
  · right; left; rw [heq, h]; decide
  · right; right; rw [heq, h]; decide

/-- C2.  A message containing a whitespace-separated token that, after
case-folding and trailing-punctuation stripping, is one of the stop words
is always suppressed — regardless of the current streak and pause state —
returning the base reply and leaving `short_reply_streak` unchanged. -/
theorem stop_word_suppresses
    (enabled : Bool) (templates : List Template) (rand : Nat) (store : Store)
    (chat_id user_message base_response : String) (recent : List String) (now : Int)
    (hwf : StoreWF store)
    (hstop : ∃ token ∈ pySplit (strip_lower user_message),
      stripPunctTrailing token ∈ STOP_WORDS) :
    (wrap_response enabled templates rand store chat_id user_message base_response
        recent now).response = base_response ∧
    (get_user_settings (wrap_response enabled templates rand store chat_id user_message
        base_response recent now).store chat_id).short_reply_streak =
      (get_user_settings store chat_id).short_reply_streak := by
  obtain ⟨token, htok, hmem⟩ := hstop
  have hne : ¬(strip_lower user_message = "") := by
    intro h0
    rw [h0, show pySplit "" = [] from rfl] at htok
    exact absurd htok (List.not_mem_nil token)
  have hsw : has_stop_word (strip_lower user_message) = true := by
    unfold has_stop_word
    rw [List.any_eq_true]
    refine ⟨token, htok, ?_⟩
    have := stripPunctBoth_of_trailing_stop token hmem
    simpa using this
  have hdec : _should_reflect user_message recent now (get_user_settings store chat_id) =
      (false, get_user_settings store chat_id) := by
    by_cases hoff : (get_user_settings store chat_id).companion_level = "off"
    · unfold _should_reflect
      rw [if_pos hoff]
    · simp [_should_reflect, hoff, hne, hsw]
  cases enabled with
  | false => exact ⟨rfl, rfl⟩
  | true =>
    have hcid : (get_user_settings store chat_id).chat_id = chat_id :=
      get_user_settings_chat_id store chat_id hwf
    rw [wrap_response_decision_false templates rand store chat_id user_message base_response
      recent now (by rw [hdec])]
    refine ⟨rfl, ?_⟩
    rw [hdec]
    exact congrArg UserSettings.short_reply_streak (get_upsert_eq store _ chat_id hcid)

/-- The one-row table `storeOffFutureNudge` is well-formed. -/
theorem storeOffFutureNudge_wf : StoreWF storeOffFutureNudge := by
  intro c s h
  unfold storeOffFutureNudge at h
  split at h
  · next hc =>
    cases h
    exact hc.symm
  · cases h

/-- Witness for C1 at a concrete input. -/
theorem companion_off_frame_witness :
    (wrap_response true DEFAULT_TEMPLATE_SET 0 storeOffFutureNudge "user-1" "hello there"
      "base reply" [] 0).response = "base reply" :=
  (companion_off_frame true DEFAULT_TEMPLATE_SET 0 storeOffFutureNudge "user-1" "hello there"
    "base reply" [] 0 storeOffFutureNudge_wf (by decide)).1

/-- Witness for C2 at a concrete input. -/
theorem stop_word_suppresses_witness :
    (wrap_response true DEFAULT_TEMPLATE_SET 0 (fun _ => none) "user-1" "STOP!"
      "base reply" [] 0).response = "base reply" :=
  (stop_word_suppresses true DEFAULT_TEMPLATE_SET 0 (fun _ => none) "user-1" "STOP!"
    "base reply" [] 0 (fun _ _ h => nomatch h) ⟨"stop!", by decide, by decide⟩).1

/-! ## C3 — engagement streak throttle -/

/-- With an active pause, every `wrap_response` call returns the base
reply: each decision path up to and including the pause check rejects. -/
theorem wrap_response_paused_suppresses
    (enabled : Bool) (templates : List Template) (rand : Nat) (store : Store)
    (chat_id user_message base_response : String) (recent : List String) (now : Int)
    (p : Int)
    (hp1 : (get_user_settings store chat_id).reflections_paused_until = some p)
    (hp2 : now < p) :
    (wrap_response enabled templates rand store chat_id user_message base_response
        recent now).response = base_response := by
  cases enabled with
  | false => rfl
  | true =>
    have hpa : paused_active (get_user_settings store chat_id) now = true := by
      unfold paused_active
      rw [hp1]
      simpa using hp2
    have hdec : (_should_reflect user_message recent now
        (get_user_settings store chat_id)).1 = false := by
      unfold _should_reflect
      by_cases h1 : (get_user_settings store chat_id).companion_level = "off"
      · simp [h1]
      · by_cases h2 : strip_lower user_message = ""
        · simp [h1, h2]
        · by_cases h3 : has_stop_word (strip_lower user_message) = true
          · simp [h1, h2, h3]
          · simp [h1, h2, h3, hpa]
    rw [wrap_response_decision_false templates rand store chat_id user_message base_response
      recent now hdec]

/-- C3.  For a message passing the earlier rejection checks: a short message
(fewer than 5 tokens) increments `short_reply_streak`, any other message
resets it to 0; whenever the resulting streak reaches 3 the reflection is
suppressed and `reflections_paused_until` is set to `now + 24h`; and any
call made for a user paused until that time returns the base reply. -/
theorem streak_throttle
    (user_message : String) (recent : List String) (now : Int) (s : UserSettings)
    (hoff : ¬ s.companion_level = "off")
    (hne : ¬ strip_lower user_message = "")
    (hsw : has_stop_word (strip_lower user_message) = false)
    (hp : paused_active s now = false)
    (hr : is_repeat (strip_lower user_message) recent = false) :
    ((_should_reflect user_message recent now s).2.short_reply_streak =
      if (pySplit (strip_lower user_message)).length < 5 then s.short_reply_streak + 1
      else 0) ∧
    ((_should_reflect user_message recent now s).2.short_reply_streak ≥ 3 →
      (_should_reflect user_message recent now s).1 = false ∧
      (_should_reflect user_message recent now s).2.reflections_paused_until =
        some (now + 1440)) ∧
    (∀ (enabled : Bool) (templates : List Template) (rand : Nat) (store : Store)
       (chat_id msg2 base2 : String) (recent2 : List String) (now2 : Int),
       (get_user_settings store chat_id).reflections_paused_until = some (now + 1440) →
       now2 < now + 1440 →
       (wrap_response enabled templates rand store chat_id msg2 base2 recent2
          now2).response = base2) := by
  have hmain : _should_reflect user_message recent now s =
      (if (if (pySplit (strip_lower user_message)).length < 5
           then { s with short_reply_streak := s.short_reply_streak + 1 }
           else { s with short_reply_streak := 0 }).short_reply_streak ≥ 3
       then (false,
         { (if (pySplit (strip_lower user_message)).length < 5
            then { s with short_reply_streak := s.short_reply_streak + 1 }
            else { s with short_reply_streak := 0 }) with
           reflections_paused_until := some (now + 1440) })
       else (true,
         if (pySplit (strip_lower user_message)).length < 5
         then { s with short_reply_streak := s.short_reply_streak + 1 }
         else { s with short_reply_streak := 0 })) := by
    simp [_should_reflect, hoff, hne, hsw, hp, hr]
  refine ⟨?_, ?_, ?_⟩
  · rw [hmain]
    by_cases hshort : (pySplit (strip_lower user_message)).length < 5
    · simp only [hshort, if_true]
      split <;> simp
    · simp only [hshort, if_false]
      split <;> simp
  · intro h3
    rw [hmain] at h3 ⊢
    by_cases hshort : (pySplit (strip_lower user_message)).length < 5
    · simp only [hshort, if_true] at h3 ⊢
      split at h3
      · next hge => simp [hge]
      · next hge => exact absurd (by simpa using h3) hge
    · simp only [hshort, if_false] at h3 ⊢
      split at h3
      · next hge => exact absurd hge (by omega)
      · next hge => exact absurd (by simpa using h3) hge
  · intro enabled templates rand store chat_id msg2 base2 recent2 now2 hpa hlt
    exact wrap_response_paused_suppresses enabled templates rand store chat_id msg2 base2
      recent2 now2 (now + 1440) hpa hlt

/-- Witness for C3 at a concrete input: a third consecutive short message. -/
theorem streak_throttle_witness :
    (_should_reflect "hi" [] 0
      { chat_id := "user-1", short_reply_streak := 2 }).2.short_reply_streak =
      if (pySplit (strip_lower "hi")).length < 5 then 2 + 1 else 0 :=
  (streak_throttle "hi" [] 0 { chat_id := "user-1", short_reply_streak := 2 }
    (by decide) (by decide) (by decide) (by decide) (by decide)).1

/-! ## C6 — the nudge adjustment loop terminates -/

/-- One-step unfolding of the adjustment loop. -/
theorem nudge_adjust_unfold (qs qe : Nat) (now c : Int) :
    nudge_adjust qs qe now c =
      if _is_after_now c now && !(_is_quiet_time (timeOfDay c) qs qe) then c
      else if c + 60 - now > 2880 then c + 60
      else nudge_adjust qs qe now (c + 60) := by
  rw [nudge_adjust]
  simp [dite_eq_ite]

/-- C6.  The candidate-adjustment loop of `_compute_next_nudge_time`
terminates for every quiet-hours configuration and every starting
candidate: some finite fuel makes the fuel-indexed loop return the total
loop's value, and the value either satisfies the exit condition (strictly
more than one minute in the future and not quiet) or exceeded the
`now + 2 days` safety bound. -/
theorem nudge_adjust_terminates (qs qe : Nat) (now candidate : Int) :
    ∃ fuel : Nat,
      nudge_adjust_fuel qs qe now fuel candidate = some (nudge_adjust qs qe now candidate) ∧
      ((_is_after_now (nudge_adjust qs qe now candidate) now = true ∧
        _is_quiet_time (timeOfDay (nudge_adjust qs qe now candidate)) qs qe = false) ∨
       nudge_adjust qs qe now candidate - now > 2880) := by
  suffices key : ∀ (m : Nat) (c : Int), (now + 2880 - c).toNat ≤ m →
      ∃ fuel : Nat,
        nudge_adjust_fuel qs qe now fuel c = some (nudge_adjust qs qe now c) ∧
        ((_is_after_now (nudge_adjust qs qe now c) now = true ∧
          _is_quiet_time (timeOfDay (nudge_adjust qs qe now c)) qs qe = false) ∨
         nudge_adjust qs qe now c - now > 2880) by
    exact key _ candidate le_rfl
  intro m
  induction m with
  | zero =>
    intro c hc
    by_cases h1 : (_is_after_now c now && !(_is_quiet_time (timeOfDay c) qs qe)) = true
    · refine ⟨1, ?_, ?_⟩
      · unfold nudge_adjust_fuel
        rw [if_pos h1, nudge_adjust_unfold, if_pos h1]
      · rw [nudge_adjust_unfold, if_pos h1]
        left
        simpa using h1
    · have h2 : c + 60 - now > 2880 := by omega
      refine ⟨1, ?_, ?_⟩
      · unfold nudge_adjust_fuel
        rw [if_neg h1, if_pos h2, nudge_adjust_unfold, if_neg h1, if_pos h2]
      · rw [nudge_adjust_unfold, if_neg h1, if_pos h2]
        right
        omega
  | succ m ih =>
    intro c hc
    by_cases h1 : (_is_after_now c now && !(_is_quiet_time (timeOfDay c) qs qe)) = true
    · refine ⟨1, ?_, ?_⟩
      · unfold nudge_adjust_fuel
        rw [if_pos h1, nudge_adjust_unfold, if_pos h1]
      · rw [nudge_adjust_unfold, if_pos h1]
        left
        simpa using h1
    · by_cases h2 : c + 60 - now > 2880
      · refine ⟨1, ?_, ?_⟩
        · unfold nudge_adjust_fuel
          rw [if_neg h1, if_pos h2, nudge_adjust_unfold, if_neg h1, if_pos h2]
        · rw [nudge_adjust_unfold, if_neg h1, if_pos h2]
          right
          omega
      · have hm : (now + 2880 - (c + 60)).toNat ≤ m := by omega
        obtain ⟨fuel, hf, hpost⟩ := ih (c + 60) hm
        refine ⟨fuel + 1, ?_, ?_⟩
        · unfold nudge_adjust_fuel
          rw [if_neg h1, if_neg h2, nudge_adjust_unfold, if_neg h1, if_neg h2]
          exact hf
        · rw [nudge_adjust_unfold, if_neg h1, if_neg h2]
          exact hpost

/-! ## C7 — idempotent nudge scheduling -/

/-- C7 counterexample.  A user whose stored `last_nudge_at` is strictly in
the future but whose `companion_level` is `"off"`: `schedule_next_nudge`
returns `none`, not the stored timestamp. -/
theorem idempotent_nudge_counterexample :
    (get_user_settings storeOffFutureNudge "user-1").last_nudge_at = some 100 ∧
    (100 : Int) > 0 ∧
    (schedule_next_nudge true [("life", ["walk today"])] 0 0 true storeOffFutureNudge
        "user-1" 0).map NudgeOutcome.result = some none ∧
    (some (none : Option Int) ≠ some (some (100 : Int))) := by
  refine ⟨by decide, by decide, by decide, by decide⟩

/-- C7 (amended).  For a user with companion enabled, `companion_level ≠ off`
and `nudge_frequency ≠ off` whose stored `last_nudge_at` is strictly in the
future, `schedule_next_nudge` returns that timestamp unchanged, enqueues
nothing and leaves the settings table untouched — so a repeated call before
the timestamp passes returns the same timestamp and nothing further is
enqueued. -/
theorem idempotent_nudge_amended
    (sparks : List (String × List String)) (r1 r2 : Nat) (enqueue_ok : Bool)
    (store : Store) (chat_id : String) (now t : Int)
    (hlvl : ¬ (get_user_settings store chat_id).companion_level = "off")
    (hfrq : ¬ (get_user_settings store chat_id).nudge_frequency = "off")
    (hlast : (get_user_settings store chat_id).last_nudge_at = some t)
    (hfut : t > now) :
    schedule_next_nudge true sparks r1 r2 enqueue_ok store chat_id now =
      some ⟨some t, store, []⟩ := by
  have h1 : ¬(true = false ∨ (get_user_settings store chat_id).companion_level = "off" ∨
      (get_user_settings store chat_id).nudge_frequency = "off") := by
    push_neg
    exact ⟨by simp, hlvl, hfrq⟩
  have h2 : nudge_in_future (get_user_settings store chat_id) now = true := by
    unfold nudge_in_future
    rw [hlast]
    simpa using hfut
  unfold schedule_next_nudge
  rw [if_neg h1, if_pos h2, hlast]

/-- Witness for the amended C7 at a concrete input. -/
theorem idempotent_nudge_amended_witness :
    schedule_next_nudge true [] 0 0 true storeFutureNudge "user-1" 0 =
      some ⟨some 100, storeFutureNudge, []⟩ :=
  idempotent_nudge_amended [] 0 0 true storeFutureNudge "user-1" 0 100
    (by decide) (by decide) (by decide) (by decide)

/-! ## C8 — atomicity of nudge scheduling on failure -/

/-- C8 counterexample.  With no sparks configured but a stored future
`last_nudge_at`, `schedule_next_nudge` returns that timestamp, not `none`. -/
theorem nudge_failure_counterexample :
    (schedule_next_nudge true [] 0 0 true storeFutureNudge "user-1" 0).map
        NudgeOutcome.result = some (some 100) ∧
    (some (some (100 : Int)) ≠ some (none : Option Int)) := by
  refine ⟨by decide, by decide⟩

/-- C8 (amended).  For a user whose call is not short-circuited by an
already-future `last_nudge_at` (and whose stored quiet-hour strings are
well-formed), if no spark can be picked or the queue hand-off fails, then
`schedule_next_nudge` returns no schedule, enqueues nothing, and leaves the
settings table untouched; in particular `last_nudge_at` is persisted only
after a successful hand-off. -/
theorem nudge_failure_atomic_amended
    (enabled : Bool) (sparks : List (String × List String)) (r1 r2 : Nat)
    (enqueue_ok : Bool) (store : Store) (chat_id : String) (now : Int)
    (hnf : nudge_in_future (get_user_settings store chat_id) now = false)
    (hq : (_quiet_bounds (get_user_settings store chat_id)).isSome = true)
    (hfail : _pick_spark sparks r1 r2 = none ∨ enqueue_ok = false) :
    schedule_next_nudge enabled sparks r1 r2 enqueue_ok store chat_id now =
      some ⟨none, store, []⟩ := by
  unfold schedule_next_nudge
  by_cases h1 : (enabled = false ∨ (get_user_settings store chat_id).companion_level = "off" ∨
      (get_user_settings store chat_id).nudge_frequency = "off")
  · rw [if_pos h1]
  · rw [if_neg h1, if_neg (by rw [hnf]; simp)]
    obtain ⟨qb, hqb⟩ := Option.isSome_iff_exists.mp hq
    have hcomp : ∃ target, _compute_next_nudge_time (get_user_settings store chat_id) now =
        some target := by
      unfold _compute_next_nudge_time
      rw [hqb]
      exact ⟨_, rfl⟩
    obtain ⟨target, htarget⟩ := hcomp
    rw [htarget]
    rcases hfail with hsp | henq
    · rw [hsp]
    · cases hs : _pick_spark sparks r1 r2 with
      | none => rfl
      | some spark =>
        simp only [henq]
        rfl

/-- Witness for the amended C8 at a concrete input: a defaulted user and an
empty spark map. -/
theorem nudge_failure_atomic_amended_witness :
    schedule_next_nudge true [] 0 0 true (fun _ => none) "user-1" 5 =
      some ⟨none, (fun _ => none), []⟩ :=
  nudge_failure_atomic_amended true [] 0 0 true (fun _ => none) "user-1" 5
    (by decide) (by decide) (Or.inl rfl)

/-! ## C4 — template rotation -/

/-- With pairwise-distinct ids, the linear scan finds exactly the position
of the template whose id is queried. -/
theorem findIdx_id_self (ts : List Template) (hnd : (ts.map Template.id).Nodup)
    (i : Nat) (hi : i < ts.length) :
    ts.findIdx? (fun t => t.id == (ts.get ⟨i, hi⟩).id) = some i := by
  induction ts generalizing i with
  | nil => exact absurd hi (by simp)
  | cons t rest ih =>
    have hnd' : (rest.map Template.id).Nodup := (List.nodup_cons.mp (by simpa using hnd)).2
    have hhead : t.id ∉ rest.map Template.id := (List.nodup_cons.mp (by simpa using hnd)).1
    cases i with
    | zero =>
      rw [List.findIdx?_cons]
      simp
    | succ j =>
      have hj : j < rest.length := by simpa using hi
      have hget : (t :: rest).get ⟨j + 1, hi⟩ = rest.get ⟨j, hj⟩ := rfl
      rw [hget, List.findIdx?_cons]
      have hne : ¬(t.id == (rest.get ⟨j, hj⟩).id) = true := by
        intro hcontra
        have hmem : (rest.get ⟨j, hj⟩).id ∈ rest.map Template.id :=
          List.mem_map_of_mem Template.id (rest.get_mem j hj)
        rw [show t.id = (rest.get ⟨j, hj⟩).id from by simpa using hcontra] at hhead
        exact hhead hmem
      rw [if_neg hne, List.findIdx?_succ, ih hnd' j hj]
      rfl

/-- The selected index is always within the bank. -/
theorem startIdx_lt (ts : List Template) (hpos : 0 < ts.length) (last : Option String) :
    startIdx ts last < ts.length := by
  cases last with
  | none => simpa [startIdx] using hpos
  | some lid =>
    by_cases hl : lid = ""
    · simpa [startIdx, hl] using hpos
    · cases hf : ts.findIdx? (fun t => t.id == lid) with
      | none => simpa [startIdx, hl, hf] using hpos
      | some idx => simpa [startIdx, hl, hf] using Nat.mod_lt (idx + 1) hpos

/-- `idAt` read through `List.get`. -/
theorem idAt_eq_get (ts : List Template) (hpos : 0 < ts.length) (k : Nat) :
    idAt ts k = (ts.get ⟨k % ts.length, Nat.mod_lt _ hpos⟩).id := by
  unfold idAt
  rw [List.get?_eq_get (Nat.mod_lt _ hpos)]
  rfl

/-- `idAt` only depends on the position modulo the bank size. -/
theorem idAt_mod (ts : List Template) (k : Nat) : idAt ts (k % ts.length) = idAt ts k := by
  unfold idAt
  rw [Nat.mod_mod_of_dvd]
  exact dvd_refl _

/-- `_next_template` selects the template at position `startIdx`. -/
theorem next_template_eq_startIdx (ts : List Template) (hpos : 0 < ts.length)
    (last : Option String) :
    ∃ t, _next_template ts last = some t ∧ t.id = idAt ts (startIdx ts last) := by
  cases ts with
  | nil => exact absurd hpos (by simp)
  | cons t0 rest =>
    have hpos' : 0 < (t0 :: rest).length := hpos
    cases last with
    | none =>
      refine ⟨t0, rfl, ?_⟩
      rw [idAt_eq_get _ hpos]
      simp [startIdx]
    | some lid =>
      by_cases hl : lid = ""
      · refine ⟨t0, by simp [_next_template, hl], ?_⟩
        rw [idAt_eq_get _ hpos]
        simp [startIdx, hl]
      · cases hf : (t0 :: rest).findIdx? (fun t => t.id == lid) with
        | none =>
          refine ⟨t0, by simp [_next_template, hl, hf], ?_⟩
          rw [idAt_eq_get _ hpos]
          simp [startIdx, hl, hf]
        | some idx =>
          have hlt : (idx + 1) % (t0 :: rest).length < (t0 :: rest).length :=
            Nat.mod_lt _ hpos
          refine ⟨(t0 :: rest).get ⟨(idx + 1) % (t0 :: rest).length, hlt⟩, ?_, ?_⟩
          · simp only [_next_template, hl, hf, if_neg]
            rw [List.get?_eq_get hlt]
            simp
          · rw [idAt_eq_get _ hpos]
            simp only [startIdx, hl, if_neg, hf]
            simp [Nat.mod_eq_of_lt hlt]

/-- After a success on the template at cyclic position `k`, the next
selection lands on cyclic position `k + 1`. -/
theorem startIdx_of_idAt (ts : List Template) (hnd : (ts.map Template.id).Nodup)
    (hids : ∀ t ∈ ts, ¬ t.id = "") (hpos : 0 < ts.length) (k : Nat) :
    startIdx ts (some (idAt ts k)) = (k % ts.length + 1) % ts.length := by
  have hk : k % ts.length < ts.length := Nat.mod_lt _ hpos
  have hget : idAt ts k = (ts.get ⟨k % ts.length, hk⟩).id := idAt_eq_get ts hpos k
  have hne : ¬ idAt ts k = "" := by
    rw [hget]
    exact hids _ (ts.get_mem _ hk)
  have hfind : ts.findIdx? (fun t => t.id == idAt ts k) = some (k % ts.length) := by
    rw [hget]
    exact findIdx_id_self ts hnd _ hk
  simp [startIdx, hne, hfind]

/-- `idAt` absorbs a reduction modulo the bank size in a summand. -/
theorem idAt_mod_add (ts : List Template) (a b : Nat) :
    idAt ts (a % ts.length + b) = idAt ts (a + b) := by
  unfold idAt
  rw [Nat.mod_add_mod]

/-- `idAt` is periodic with period the bank size. -/
theorem idAt_add_len (ts : List Template) (j : Nat) :
    idAt ts (j + ts.length) = idAt ts j := by
  unfold idAt
  rw [Nat.add_mod_right]

/-- `idAt` at an in-range position. -/
theorem idAt_of_lt (ts : List Template) (j : Nat) (hj : j < ts.length) :
    idAt ts j = (ts.get ⟨j, hj⟩).id := by
  unfold idAt
  rw [Nat.mod_eq_of_lt hj, List.get?_eq_get hj]
  rfl

/-- Distinct ids make `idAt` injective on cyclic positions. -/
theorem idAt_inj (ts : List Template) (hnd : (ts.map Template.id).Nodup)
    (hpos : 0 < ts.length) (a b : Nat) (h : idAt ts a = idAt ts b) :
    a % ts.length = b % ts.length := by
  have ha : a % ts.length < ts.length := Nat.mod_lt _ hpos
  have hb : b % ts.length < ts.length := Nat.mod_lt _ hpos
  rw [idAt_eq_get ts hpos a, idAt_eq_get ts hpos b] at h
  have ha' : a % ts.length < (ts.map Template.id).length := by simpa using ha
  have hb' : b % ts.length < (ts.map Template.id).length := by simpa using hb
  have hm : (ts.map Template.id).get ⟨a % ts.length, ha'⟩ =
      (ts.map Template.id).get ⟨b % ts.length, hb'⟩ := by
    rw [List.get_map, List.get_map]
    exact h
  have := (hnd.get_inj_iff).mp hm
  exact congrArg Fin.val this

/-- The ids of `n` consecutive successful reflections are the cyclic walk
starting at `startIdx`. -/
theorem rotateIds_formula (ts : List Template) (hnd : (ts.map Template.id).Nodup)
    (hids : ∀ t ∈ ts, ¬ t.id = "") (hpos : 0 < ts.length) :
    ∀ (n : Nat) (last : Option String),
      rotateIds ts n last =
        (List.range n).map (fun k => idAt ts (startIdx ts last + k)) := by
  intro n
  induction n with
  | zero => intro last; simp [rotateIds]
  | succ n ih =>
    intro last
    obtain ⟨t, hnt, hid⟩ := next_template_eq_startIdx ts hpos last
    have hstart : startIdx ts last < ts.length := startIdx_lt ts hpos last
    have hstep : rotateIds ts (n + 1) last = t.id :: rotateIds ts n (some t.id) := by
      conv_lhs => rw [rotateIds]
      rw [hnt]
    rw [hstep, ih (some t.id), List.range_succ_eq_map, List.map_cons, List.map_map]
    have hhead : t.id = idAt ts (startIdx ts last + 0) := by
      rw [hid, Nat.add_zero]
    have htail : (List.range n).map (fun k => idAt ts (startIdx ts (some t.id) + k)) =
        (List.range n).map ((fun k => idAt ts (startIdx ts last + k)) ∘ Nat.succ) := by
      have hs2 : startIdx ts (some t.id) =
          (startIdx ts last % ts.length + 1) % ts.length := by
        rw [hid]
        exact startIdx_of_idAt ts hnd hids hpos (startIdx ts last)
      apply List.map_congr_left
      intro k _
      rw [hs2, Nat.mod_eq_of_lt hstart]
      have hmm : idAt ts ((startIdx ts last + 1) % ts.length + k) =
          idAt ts (startIdx ts last + 1 + k) := idAt_mod_add ts _ _
      rw [hmm]
      simp only [Function.comp]
      congr 1
      omega
    rw [htail, hhead]

/-- C4.  Template rotation: starting from any `last_template_id`, over any
`N ≥ bank size` consecutive successful reflections every template id
appears at least once before any id repeats (the first `bank size` ids are
pairwise distinct and cover the bank), and no two consecutive reflections
use the same template.  The bank is assumed to have pairwise-distinct,
non-empty ids and at least two templates, which holds for the shipped
`DEFAULT_TEMPLATE_SET`. -/
theorem template_rotation
    (ts : List Template)
    (hnd : (ts.map Template.id).Nodup)
    (hids : ∀ t ∈ ts, ¬ t.id = "")
    (hlen : 2 ≤ ts.length)
    (last : Option String) (N : Nat) (hN : ts.length ≤ N) :
    ((rotateIds ts N last).take ts.length).Nodup ∧
    (∀ t ∈ ts, t.id ∈ (rotateIds ts N last).take ts.length) ∧
    List.Chain' (fun a b => a ≠ b) (rotateIds ts N last) := by
  have hpos : 0 < ts.length := by omega
  have hform := rotateIds_formula ts hnd hids hpos N last
  set s := startIdx ts last with hs
  have htake : (rotateIds ts N last).take ts.length =
      (List.range ts.length).map (fun k => idAt ts (s + k)) := by
    rw [hform, ← List.map_take, List.take_range, min_eq_left hN]
  refine ⟨?_, ?_, ?_⟩
  · rw [htake]
    apply List.Nodup.map_on ?_ (List.nodup_range _)
    intro k1 hk1 k2 hk2 hfk
    rw [List.mem_range] at hk1 hk2
    have hmod := idAt_inj ts hnd hpos (s + k1) (s + k2) hfk
    have hcc : k1 % ts.length = k2 % ts.length := Nat.ModEq.add_left_cancel' s hmod
    rwa [Nat.mod_eq_of_lt hk1, Nat.mod_eq_of_lt hk2] at hcc
  · intro t ht
    rw [htake]
    obtain ⟨⟨j, hj⟩, hgt⟩ := List.mem_iff_get.mp ht
    refine List.mem_map.mpr
      ⟨(j + ts.length - s) % ts.length, List.mem_range.mpr (Nat.mod_lt _ hpos), ?_⟩
    show idAt ts (s + (j + ts.length - s) % ts.length) = t.id
    rw [Nat.add_comm s _, idAt_mod_add]
    rw [show j + ts.length - s + s = j + ts.length from by
      have := startIdx_lt ts hpos last
      omega]
    rw [idAt_add_len, idAt_of_lt ts j hj, hgt]
  · rw [hform, List.chain'_map]
    cases N with
    | zero => simp
    | succ n =>
      rw [List.chain'_range_succ]
      intro m hm hcontra
      have hmod := idAt_inj ts hnd hpos (s + m) (s + (m + 1)) hcontra
      have h1 : Nat.ModEq ts.length (s + m) ((s + m) + 1) := by
        rw [show (s + m) + 1 = s + (m + 1) from by omega]
        exact hmod
      have hd := Nat.modEq_iff_dvd.mp h1
      have h2 : (ts.length : ℤ) ∣ 1 := by simpa using hd
      have := Int.le_of_dvd one_pos h2
      omega

/-- Witness for C4 at the shipped default bank, three reflections from a
fresh user. -/
theorem template_rotation_witness :
    ((rotateIds DEFAULT_TEMPLATE_SET 3 none).take 3).Nodup :=
  (template_rotation DEFAULT_TEMPLATE_SET (by decide) (by decide) (by decide) none 3
    (by decide)).1
